import Mathlib

/-!
Verification of the scheduling and dispatch engine of the test-job
orchestrator (Express + Redis source).  The definitions below are a shallow
embedding of the JavaScript source:

* `updateJobStatus`, `updateAgentStatus`, the queue operations and the two
  stores follow `src/server/services/redis.js`;
* the scheduler tick (`processQueueByPriority`, `findSuitableAgent`,
  `shouldGroupJob`, `addJobToGroup`, `assignJobToAgent`) follows
  `src/server/services/jobProcessor.js`;
* the retry / group-advance path (`executeJobStep`) follows the failure
  handling in `executeJob` / `simulateJobExecution`;
* the HTTP handlers (`postJobs`, `statusRoute`, `claimRoute`,
  `completeRoute` and their shadowed duplicates) follow
  `src/server/routes/jobs.js` and `src/server/routes/agents.js`.

Timestamps are natural numbers standing for milliseconds since the epoch
(the source stores ISO strings and compares them through `new Date`).
JavaScript objects with optional keys become structures with `Option`
fields; `Object.assign(job, additionalData)` becomes `applyPatch`, whose
patch fields are `Option (Option _)`: the outer `Option` records whether
the key is present in `additionalData`, the inner one its value.
-/

namespace JobServer

/-- Association-list lookup, modelling a redis `GET` of `job:{id}` or
`agent:{id}` (and a `Map.get` on the in-memory grouping map).  The store
is a key-value map, so the lists never carry duplicate keys. -/
def alookup {α : Type} : List (String × α) → String → Option α
  | [], _ => none
  | (k, v) :: rest, key => if k = key then some v else alookup rest key

/-- Association-list upsert, modelling a redis `SET` (TTLs are ignored). -/
def aset {α : Type} : List (String × α) → String → α → List (String × α)
  | [], key, v => [(key, v)]
  | (k, w) :: rest, key, v =>
    if k = key then (key, v) :: rest else (k, w) :: aset rest key v

/-- A job record (`job:{id}` in redis).  Field names follow the source;
keys that the source only sometimes attaches are `Option`s. -/
structure Job where
  id : String
  org_id : String
  app_version_id : String
  test_path : String
  priority : String
  target : String
  status : String
  created_at : Nat
  updated_at : Nat
  started_at : Option Nat := none
  completed_at : Option Nat := none
  assigned_agent : Option String := none
  agent_id : Option String := none
  assigned_at : Option Nat := none
  claimed_at : Option Nat := none
  group_key : Option String := none
  retry_count : Option Nat := none
  last_error : Option String := none
  retry_at : Option Nat := none
  result : Option String := none
  error : Option String := none
  max_retries_reached : Option Bool := none
  deriving Repr, DecidableEq

/-- The capability object of an agent (`capabilities` in the registration
schema: three booleans). -/
structure Capabilities where
  emulator : Bool
  device : Bool
  browserstack : Bool
  deriving Repr, DecidableEq

/-- Dynamic lookup `agent.capabilities[target]`: any key other than the
three declared ones reads as `undefined`, i.e. falsy. -/
def Capabilities.at (c : Capabilities) (target : String) : Bool :=
  if target = "emulator" then c.emulator
  else if target = "device" then c.device
  else if target = "browserstack" then c.browserstack
  else false

/-- An agent record (`agent:{id}` in redis). -/
structure Agent where
  id : String
  name : String
  capabilities : Capabilities
  status : String
  current_job : Option Job := none
  last_seen : Nat
  registered_at : Nat
  deriving Repr, DecidableEq

/-- The whole store: job records, agent records and the priority lists
(`jobs:high`, `jobs:medium`, `jobs:low`; index 0 of a list is the redis
head, i.e. the side `lPush` inserts at; `rPop` removes the last element,
so index 0 is the FIFO tail). -/
structure St where
  jobs : List (String × Job)
  agents : List (String × Agent)
  queues : List (String × List Job)
  deriving Repr, DecidableEq

/-- `Queue.getQueueJobs`: `lRange(queueName, 0, -1)`. -/
def getQueueJobs (st : St) (queueName : String) : List Job :=
  (alookup st.queues queueName).getD []

/-- `Queue.addJob`: `lPush` of the serialized job. -/
def queuePush (st : St) (queueName : String) (job : Job) : St :=
  { st with queues := aset st.queues queueName (job :: getQueueJobs st queueName) }

/-- Draining loop `while (await Queue.getNextJob(queueName)) {}`:
`rPop` until the list is empty. -/
def queueClear (st : St) (queueName : String) : St :=
  { st with queues := aset st.queues queueName [] }

/-- `additionalData` given to `JobStore.updateJobStatus`.  A field that is
`none` is a key absent from the object; `some v` is a key present with
value `v` (itself an `Option`, since the source sometimes assigns
`undefined` explicitly). -/
structure Patch where
  agent_id : Option (Option String) := none
  assigned_agent : Option (Option String) := none
  assigned_at : Option (Option Nat) := none
  claimed_at : Option (Option Nat) := none
  group_key : Option (Option String) := none
  retry_count : Option (Option Nat) := none
  last_error : Option (Option String) := none
  retry_at : Option (Option Nat) := none
  result : Option (Option String) := none
  error : Option (Option String) := none
  completed_at : Option (Option Nat) := none
  max_retries_reached : Option (Option Bool) := none
  deriving Repr, DecidableEq

/-- `Object.assign(job, additionalData)`. -/
def applyPatch (j : Job) (p : Patch) : Job :=
  { j with
    agent_id := p.agent_id.getD j.agent_id
    assigned_agent := p.assigned_agent.getD j.assigned_agent
    assigned_at := p.assigned_at.getD j.assigned_at
    claimed_at := p.claimed_at.getD j.claimed_at
    group_key := p.group_key.getD j.group_key
    retry_count := p.retry_count.getD j.retry_count
    last_error := p.last_error.getD j.last_error
    retry_at := p.retry_at.getD j.retry_at
    result := p.result.getD j.result
    error := p.error.getD j.error
    completed_at := p.completed_at.getD j.completed_at
    max_retries_reached := p.max_retries_reached.getD j.max_retries_reached }

/-- The record transformation inside `JobStore.updateJobStatus`: set
`status` and `updated_at`, stamp `started_at` when the new status is
`running` and `completed_at` when it is `completed` or `failed` (note:
not for `cancelled`), then merge `additionalData`. -/
def jobAfterUpdate (job0 : Job) (now : Nat) (status : String) (extra : Patch) : Job :=
  let job1 := { job0 with status := status, updated_at := now }
  let job2 :=
    if status = "running" then { job1 with started_at := some now }
    else if status = "completed" ∨ status = "failed" then
      { job1 with completed_at := some now }
    else job1
  applyPatch job2 extra

/-- `JobStore.updateJobStatus(jobId, status, additionalData)`: re-reads the
record, applies `jobAfterUpdate` and writes the result back.  Returns the
updated record, or `none` when the job does not exist. -/
def updateJobStatus (st : St) (now : Nat) (jobId status : String) (extra : Patch) :
    St × Option Job :=
  match alookup st.jobs jobId with
  | none => (st, none)
  | some job0 =>
    let job3 := jobAfterUpdate job0 now status extra
    ({ st with jobs := aset st.jobs jobId job3 }, some job3)

/-- `AgentStore.updateAgentStatus(agentId, status, currentJob = null)`:
sets status, replaces `current_job` (clearing it when the caller passes no
job) and refreshes `last_seen`. -/
def updateAgentStatus (st : St) (now : Nat) (agentId status : String)
    (currentJob : Option Job) : St × Option Agent :=
  match alookup st.agents agentId with
  | none => (st, none)
  | some a0 =>
    let a1 := { a0 with status := status, current_job := currentJob, last_seen := now }
    ({ st with agents := aset st.agents agentId a1 }, some a1)

/-- `AgentStore.getActiveAgents()`: every stored agent whose `last_seen`
is within the last 120 000 ms. -/
def getActiveAgents (st : St) (now : Nat) : List Agent :=
  (st.agents.map (·.2)).filter (fun a => now - a.last_seen < 120000)

/-! ## The scheduler tick (`jobProcessor.js`) -/

/-- An entry of the in-memory `groupingMap`, keyed by
`agentId ++ ":" ++ app_version_id`. -/
structure Group where
  agent_id : String
  app_version_id : String
  jobs : List Job
  created_at : Nat
  processing : Bool := false
  deriving Repr, DecidableEq

/-- Scheduler-visible state: the store plus the processor-held
`groupingMap`. -/
structure Tick where
  st : St
  groups : List (String × Group)
  deriving Repr, DecidableEq

/-- One event of a tick, recorded in the order the loop emits it. -/
inductive Decision where
  | assigned (jobId agentId : String)
  | grouped (jobId agentId : String)
  | requeued (jobId : String)
  deriving Repr, DecidableEq

/-- The job a decision is about. -/
def Decision.jobId : Decision → String
  | .assigned j _ => j
  | .grouped j _ => j
  | .requeued j => j

/-- The hard-coded `orgPriorities` table of `processQueueByPriority`, read
through `orgPriorities[a.org_id] || 10`. -/
def orgPriority (orgId : String) : Nat :=
  if orgId = "qualgent" then 100
  else if orgId = "premium-org" then 90
  else if orgId = "enterprise" then 80
  else if orgId = "standard" then 50
  else 10

/-- The comparator handed to `allJobs.sort`: true when the comparator
returns a non-positive number, i.e. weight descending, then `created_at`
ascending. -/
def jobLE (a b : Job) : Bool :=
  if orgPriority a.org_id ≠ orgPriority b.org_id then
    decide (orgPriority b.org_id < orgPriority a.org_id)
  else
    decide (a.created_at ≤ b.created_at)

/-- The comparator as a decidable relation. -/
def jobLEP (a b : Job) : Prop := jobLE a b = true

instance : DecidableRel jobLEP :=
  fun a b => inferInstanceAs (Decidable (jobLE a b = true))

/-- `allJobs.sort(comparator)`: JavaScript array sort is specified as a
stable sort by the comparator, and a stable sort's output is uniquely
determined by the comparator, so it is embedded as a stable insertion
sort. -/
def sortQueueJobs (jobs : List Job) : List Job :=
  List.insertionSort jobLEP jobs

/-- The ordering the specification words describe for a queue snapshot:
tenant weight descending, ties broken by `created_at` ascending.  Stated
from the spec, to be compared with the comparator `jobLE` taken from the
source. -/
def specOrder (a b : Job) : Prop :=
  orgPriority b.org_id < orgPriority a.org_id ∨
    (orgPriority a.org_id = orgPriority b.org_id ∧ a.created_at ≤ b.created_at)

/-- `findSuitableAgent(job, agents)`: `agents.find` with the capability
predicate of the source, whose final branch is `return true` (the comment
in the source reads: any agent can handle any target, for demo purposes). -/
def suitablePred (job : Job) (agent : Agent) : Bool :=
  if job.target = "emulator" ∧ agent.capabilities.emulator then true
  else if job.target = "device" ∧ agent.capabilities.device then true
  else if job.target = "browserstack" ∧ agent.capabilities.browserstack then true
  else true

/-- `agents.find(...)` over the suitability predicate. -/
def findSuitableAgent (job : Job) (agents : List Agent) : Option Agent :=
  agents.find? (suitablePred job)

/-- `shouldGroupJob(job, agent)`: the agent snapshot already carries a
`current_job` with the same `app_version_id`, or the grouping map has an
entry for `agentId:app_version_id`. -/
def shouldGroupJob (tk : Tick) (job : Job) (agent : Agent) : Bool :=
  (match agent.current_job with
   | some cj => cj.app_version_id = job.app_version_id
   | none => false)
  || (alookup tk.groups (agent.id ++ ":" ++ job.app_version_id)).isSome

/-- `addJobToGroup(job, agent)`: create the group lazily, push the job,
and mark the record `queued_for_group` with `group_key` and `agent_id`. -/
def addJobToGroup (tk : Tick) (now : Nat) (job : Job) (agent : Agent) : Tick :=
  let groupKey := agent.id ++ ":" ++ job.app_version_id
  let groups :=
    if (alookup tk.groups groupKey).isSome then tk.groups
    else aset tk.groups groupKey
      { agent_id := agent.id, app_version_id := job.app_version_id,
        jobs := [], created_at := now }
  let groups :=
    match alookup groups groupKey with
    | some g => aset groups groupKey { g with jobs := g.jobs ++ [job] }
    | none => groups
  let st1 := (updateJobStatus tk.st now job.id "queued_for_group"
    { group_key := some (some groupKey), agent_id := some (some agent.id) }).1
  { st := st1, groups := groups }

/-- `assignJobToAgent(job, agent)`: mark the agent busy with this job,
mark the record running with `agent_id` and `assigned_at`, and register a
fresh processing group.  The subsequent `executeJob` call is spawned
without `await`; its effects belong to a later asynchronous step and are
modelled separately by `executeJobStep`. -/
def assignJobToAgent (tk : Tick) (now : Nat) (job : Job) (agent : Agent) : Tick :=
  let st1 := (updateAgentStatus tk.st now agent.id "busy" (some job)).1
  let st2 := (updateJobStatus st1 now job.id "running"
    { agent_id := some (some agent.id), assigned_at := some (some now) }).1
  let groupKey := agent.id ++ ":" ++ job.app_version_id
  let groups := aset tk.groups groupKey
    { agent_id := agent.id, app_version_id := job.app_version_id,
      jobs := [job], created_at := now, processing := true }
  { st := st2, groups := groups }

/-- The `for (const job of allJobs)` body of `processQueueByPriority`:
when no agents remain the job is pushed back; otherwise the found agent
either groups the job or receives it directly (and is then spliced out of
the available list).  The returned trace records each emitted decision in
loop order. -/
def processLoop (jobs : List Job) (agents : List Agent) (tk : Tick)
    (queueName : String) (now : Nat) : Tick × List Agent × List Decision :=
  match jobs with
  | [] => (tk, agents, [])
  | job :: rest =>
    if agents.length = 0 then
      let tk1 := { tk with st := queuePush tk.st queueName job }
      let (tk2, ag2, tr) := processLoop rest agents tk1 queueName now
      (tk2, ag2, .requeued job.id :: tr)
    else
      match findSuitableAgent job agents with
      | none =>
        let tk1 := { tk with st := queuePush tk.st queueName job }
        let (tk2, ag2, tr) := processLoop rest agents tk1 queueName now
        (tk2, ag2, .requeued job.id :: tr)
      | some agent =>
        if shouldGroupJob tk job agent then
          let tk1 := addJobToGroup tk now job agent
          let (tk2, ag2, tr) := processLoop rest agents tk1 queueName now
          (tk2, ag2, .grouped job.id agent.id :: tr)
        else
          let tk1 := assignJobToAgent tk now job agent
          let agents1 := agents.eraseP (fun a => a.id = agent.id)
          let (tk2, ag2, tr) := processLoop rest agents1 tk1 queueName now
          (tk2, ag2, .assigned job.id agent.id :: tr)

/-- `processQueueByPriority(priority, availableAgents)`: snapshot the
queue, sort it by org weight then creation time, drain the underlying
list, then walk the sorted snapshot. -/
def processQueueByPriority (priority : String) (agents : List Agent) (tk : Tick)
    (now : Nat) : Tick × List Agent × List Decision :=
  let queueName := "jobs:" ++ priority
  let allJobs := getQueueJobs tk.st queueName
  if allJobs.length = 0 then (tk, agents, [])
  else
    let sorted := sortQueueJobs allJobs
    let tk1 := { tk with st := queueClear tk.st queueName }
    processLoop sorted agents tk1 queueName now

/-- `processJobs()`: fetch active agents, keep the idle ones, and process
the three queues high, medium, low with the same (mutated) agent list. -/
def processJobs (tk : Tick) (now : Nat) : Tick × List Decision :=
  let agents := getActiveAgents tk.st now
  let idle := agents.filter (fun a => a.status = "idle")
  if idle.length = 0 then (tk, [])
  else
    let (tk1, ag1, d1) := processQueueByPriority "high" idle tk now
    let (tk2, ag2, d2) := processQueueByPriority "medium" ag1 tk1 now
    let (tk3, _, d3) := processQueueByPriority "low" ag2 tk2 now
    (tk3, d1 ++ d2 ++ d3)

/-! ## Completion handling and retry (`executeJob` / `simulateJobExecution`) -/

/-- The group bookkeeping at the end of `executeJob`: when the agent holds
a group with more than one job, the finished job is filtered out and the
new head is marked running (its execution is spawned without `await`; the
spawned job is returned instead of being run); otherwise the agent is
freed and the group discarded. -/
def groupAdvance (tk : Tick) (now : Nat) (job : Job) (agent : Agent) :
    Tick × Option Job :=
  let groupKey := agent.id ++ ":" ++ job.app_version_id
  match alookup tk.groups groupKey with
  | some group =>
    if 1 < group.jobs.length then
      let remaining := group.jobs.filter (fun j => j.id ≠ job.id)
      let groups := aset tk.groups groupKey { group with jobs := remaining }
      match remaining with
      | nextJob :: _ =>
        let st1 := (updateJobStatus tk.st now nextJob.id "running"
          { agent_id := some (some agent.id), assigned_at := some (some now) }).1
        ({ st := st1, groups := groups }, some nextJob)
      | [] =>
        let st1 := (updateAgentStatus tk.st now agent.id "idle" none).1
        ({ st := st1, groups := tk.groups.filter (fun p => p.1 ≠ groupKey) }, none)
    else
      let st1 := (updateAgentStatus tk.st now agent.id "idle" none).1
      ({ st := st1, groups := tk.groups.filter (fun p => p.1 ≠ groupKey) }, none)
  | none =>
    let st1 := (updateAgentStatus tk.st now agent.id "idle" none).1
    ({ st := st1, groups := tk.groups }, none)

/-- One finished execution of `job` on `agent` with outcome `passed`
(the branch on `result.status === 'passed'` of `executeJob`, identical in
`simulateJobExecution`).  On failure, with `currentRetries` read from the
job object that was dispatched: if it is below the literal `maxRetries = 3`
the record turns `retrying` with `retry_count + 1` and a copy with
`retry_count + 1` and status `pending` is pushed onto `jobs:{priority}`;
otherwise the record turns `failed`.  Afterwards the group is advanced. -/
def executeJobStep (tk : Tick) (now : Nat) (job : Job) (agent : Agent)
    (passed : Bool) : Tick × Option Job :=
  if passed then
    let st1 := (updateJobStatus tk.st now job.id "completed"
      { result := some (some "passed") }).1
    groupAdvance { tk with st := st1 } now job agent
  else
    let currentRetries := job.retry_count.getD 0
    if currentRetries < 3 then
      let st1 := (updateJobStatus tk.st now job.id "retrying"
        { retry_count := some (some (currentRetries + 1)),
          last_error := some (some "Test execution failed"),
          retry_at := some (some (now + 30000)) }).1
      let st2 := queuePush st1 ("jobs:" ++ job.priority)
        { job with retry_count := some (currentRetries + 1), status := "pending" }
      groupAdvance { tk with st := st2 } now job agent
    else
      let st1 := (updateJobStatus tk.st now job.id "failed"
        { error := some (some "Test execution failed after maximum retries"),
          retry_count := some (some currentRetries),
          max_retries_reached := some (some true),
          result := some (some "failed") }).1
      groupAdvance { tk with st := st1 } now job agent

/-! ## HTTP handlers -/

/-- Outcome of a route handler, by HTTP status of the response the source
sends.  `internalError` is the catch-all 500 branch; the two first-registered
agent routes reach it on their success path because they call
`JobStore.updateJob`, a function the redis module does not define, so the
call raises a TypeError that the surrounding catch turns into a 500
without any store write. -/
inductive RouteRes where
  | ok
  | created
  | badRequest
  | forbidden
  | notFound
  | conflict
  | internalError
  deriving Repr, DecidableEq

/-- Raw body of `POST /api/jobs` (only the keys of the Joi schema; a key
that is `none` is absent). -/
structure SubmitBody where
  org_id : Option String := none
  app_version_id : Option String := none
  test_path : Option String := none
  priority : Option String := none
  target : Option String := none
  id : Option String := none
  created_at : Option Nat := none
  status : Option String := none
  deriving Repr, DecidableEq

/-- The value produced by a successful Joi validation of `jobSchema`
(defaults applied). -/
structure SubmitVal where
  org_id : String
  app_version_id : String
  test_path : String
  priority : String
  target : String
  id : Option String
  created_at : Option Nat
  status : Option String
  deriving Repr, DecidableEq

/-- `jobSchema.validate(req.body)`: the three required keys must be
present, non-empty strings; `priority` and `target` must come from their
enumerations (defaulting to `medium` and `emulator`); `id` and `status`
are optional strings (Joi strings reject the empty string); `created_at`
is an optional date. -/
def validateSubmit (b : SubmitBody) : Option SubmitVal :=
  match b.org_id, b.app_version_id, b.test_path with
  | some o, some av, some tp =>
    if o = "" ∨ av = "" ∨ tp = "" then none
    else
      let pr := b.priority.getD "medium"
      let tg := b.target.getD "emulator"
      if ¬ (pr = "low" ∨ pr = "medium" ∨ pr = "high") then none
      else if ¬ (tg = "emulator" ∨ tg = "device" ∨ tg = "browserstack") then none
      else if b.id = some "" then none
      else if b.status = some "" then none
      else some { org_id := o, app_version_id := av, test_path := tp,
                  priority := pr, target := tg, id := b.id,
                  created_at := b.created_at, status := b.status }
  | _, _, _ => none

/-- `POST /api/jobs`: validate, build the record (status forced to
`pending`, `created_at` taken from the body when present, id taken from
the body when present and otherwise the fresh uuid), store it with
`JobStore.setJob` (an unconditional upsert — no existence check), push it
onto `jobs:{priority}` and answer 201 with the record and the queue
length. -/
def postJobs (st : St) (now : Nat) (freshId : String) (b : SubmitBody) :
    RouteRes × St × Option (Job × Nat) :=
  match validateSubmit b with
  | none => (.badRequest, st, none)
  | some v =>
    let job : Job :=
      { id := v.id.getD freshId, org_id := v.org_id,
        app_version_id := v.app_version_id, test_path := v.test_path,
        priority := v.priority, target := v.target, status := "pending",
        created_at := v.created_at.getD now, updated_at := now }
    let st1 := { st with jobs := aset st.jobs job.id job }
    let queueName := "jobs:" ++ job.priority
    let st2 := queuePush st1 queueName job
    let len := (getQueueJobs st2 queueName).length
    (.created, st2, some (job, len))

/-- The `validStatuses` whitelist of `PUT /api/jobs/:jobId/status`. -/
def validStatuses : List String :=
  ["pending", "running", "completed", "failed", "cancelled"]

/-- `PUT /api/jobs/:jobId/status`: reject a target status outside the
whitelist, 404 a missing job, and otherwise apply `updateJobStatus`
unconditionally — no state-machine edge is checked.  `result` and `error`
keys are attached only when truthy (the empty string is falsy). -/
def statusRoute (st : St) (now : Nat) (jobId status : String)
    (result errorMessage : Option String) : RouteRes × St :=
  if ¬ validStatuses.contains status then (.badRequest, st)
  else
    match alookup st.jobs jobId with
    | none => (.notFound, st)
    | some _ =>
      let extra : Patch :=
        { result := match result with
            | some r => if r = "" then none else some (some r)
            | none => none
          error := match errorMessage with
            | some e => if e = "" then none else some (some e)
            | none => none }
      let st1 := (updateJobStatus st now jobId status extra).1
      (.ok, st1)

/-- `DELETE /api/jobs/:jobId`: cancellation is permitted only from
`pending` or `running`; it goes through `updateJobStatus` with no
additional data. -/
def deleteJob (st : St) (now : Nat) (jobId : String) : RouteRes × St :=
  match alookup st.jobs jobId with
  | none => (.notFound, st)
  | some job =>
    if ¬ (job.status = "pending" ∨ job.status = "running") then (.badRequest, st)
    else
      let st1 := (updateJobStatus st now jobId "cancelled" {}).1
      (.ok, st1)

/-- `PUT /api/agents/:id/jobs/:jobId/claim`, first registration (the one
Express dispatches to): 404 on a missing agent or job, 409 when the job
status is anything but `pending`, 403 when
`agent.capabilities[job.target]` is falsy; the success branch then calls
the undefined `JobStore.updateJob`, so it throws and answers 500 with the
store untouched. -/
def claimRoute (st : St) (agentId jobId : String) : RouteRes × St :=
  match alookup st.agents agentId with
  | none => (.notFound, st)
  | some agent =>
    match alookup st.jobs jobId with
    | none => (.notFound, st)
    | some job =>
      if job.status ≠ "pending" then (.conflict, st)
      else if ¬ agent.capabilities.at job.target then (.forbidden, st)
      else (.internalError, st)

/-- The second, shadowed registration of the claim route (dead code under
Express first-match dispatch): 400 instead of 409 on a non-pending job, no
capability check, job marked running with `assigned_agent`/`claimed_at`,
and the agent marked busy — with `current_job` left at the
`updateAgentStatus` default, i.e. cleared, not set to the job. -/
def claimRouteShadowed (st : St) (now : Nat) (agentId jobId : String) : RouteRes × St :=
  match alookup st.agents agentId with
  | none => (.notFound, st)
  | some _ =>
    match alookup st.jobs jobId with
    | none => (.notFound, st)
    | some job =>
      if job.status ≠ "pending" then (.badRequest, st)
      else
        let st1 := (updateJobStatus st now jobId "running"
          { assigned_agent := some (some agentId), claimed_at := some (some now) }).1
        let st2 := (updateAgentStatus st1 now agentId "busy" none).1
        (.ok, st2)

/-- `PUT /api/agents/:id/jobs/:jobId/complete`, first registration (the
one Express dispatches to): 404 on a missing agent or job, 403 when
`job.assigned_agent !== agentId` — the job status is never examined; the
success branch then calls the undefined `JobStore.updateJob`, so it throws
and answers 500 with the store untouched. -/
def completeRoute (st : St) (agentId jobId : String) (success : Bool)
    (errorMessage results : Option String) : RouteRes × St :=
  match alookup st.agents agentId with
  | none => (.notFound, st)
  | some _ =>
    match alookup st.jobs jobId with
    | none => (.notFound, st)
    | some job =>
      if job.assigned_agent ≠ some agentId then (.forbidden, st)
      else (.internalError, st)

/-- The second, shadowed registration of the complete route (dead code
under Express first-match dispatch): same 403 check, then
`updateJobStatus` to `completed` or `failed` (with `completed_at`,
`result` and `error` keys always present in the patch, possibly as
`undefined`), and the agent set back to idle. -/
def completeRouteShadowed (st : St) (now : Nat) (agentId jobId : String)
    (success : Bool) (errorMessage results : Option String) : RouteRes × St :=
  match alookup st.agents agentId with
  | none => (.notFound, st)
  | some _ =>
    match alookup st.jobs jobId with
    | none => (.notFound, st)
    | some job =>
      if job.assigned_agent ≠ some agentId then (.forbidden, st)
      else
        let status := if success then "completed" else "failed"
        let st1 := (updateJobStatus st now jobId status
          { completed_at := some (some now), result := some results,
            error := some errorMessage }).1
        let st2 := (updateAgentStatus st1 now agentId "idle" none).1
        (.ok, st2)

/-! ## Concrete fixtures used by the counterexamples and witnesses -/

/-- An idle agent with no capability at all. -/
def agentNone : Agent :=
  { id := "a1", name := "bare agent", capabilities := ⟨false, false, false⟩,
    status := "idle", last_seen := 0, registered_at := 0 }

/-- An idle agent that can drive an emulator only. -/
def agentEmu : Agent :=
  { id := "a2", name := "emulator agent", capabilities := ⟨true, false, false⟩,
    status := "idle", last_seen := 0, registered_at := 0 }

/-- A pending job that requires a physical device. -/
def jobDevice : Job :=
  { id := "j1", org_id := "acme", app_version_id := "v1",
    test_path := "tests/login.spec.js", priority := "medium", target := "device",
    status := "pending", created_at := 0, updated_at := 0 }

/-- Store for the C1 scenario: one pending device job, one idle agent with
no capability. -/
def stC1 : St :=
  { jobs := [("j1", jobDevice)], agents := [("a1", agentNone)],
    queues := [("jobs:medium", [jobDevice])] }

/-- The queue copy of job `j2` as it was enqueued (still pending). -/
def jobStaleC4 : Job :=
  { id := "j2", org_id := "acme", app_version_id := "v1",
    test_path := "tests/login.spec.js", priority := "medium", target := "emulator",
    status := "pending", created_at := 0, updated_at := 0 }

/-- The store record of job `j2`, cancelled after it was enqueued. -/
def jobCancelledC4 : Job :=
  { jobStaleC4 with status := "cancelled", updated_at := 5 }

/-- Store for the C4 scenario: the queue still holds the stale pending
copy while the record has been cancelled. -/
def stC4 : St :=
  { jobs := [("j2", jobCancelledC4)], agents := [("a2", agentEmu)],
    queues := [("jobs:medium", [jobStaleC4])] }

/-- A fresh pending emulator job that will fail every execution. -/
def jobC2 : Job :=
  { id := "j3", org_id := "acme", app_version_id := "v1",
    test_path := "tests/login.spec.js", priority := "medium", target := "emulator",
    status := "pending", created_at := 0, updated_at := 0 }

/-- The idle agent executing `jobC2`. -/
def agentC2 : Agent :=
  { id := "a3", name := "retry agent", capabilities := ⟨true, false, false⟩,
    status := "idle", last_seen := 0, registered_at := 0 }

/-- Initial state of the C2 scenario. -/
def tkC2 : Tick :=
  ⟨{ jobs := [("j3", jobC2)], agents := [("a3", agentC2)],
     queues := [("jobs:medium", [jobC2])] }, []⟩

/-- First dispatch: the tick assigns `jobC2` to the agent. -/
def tkD1 : Tick := (processJobs tkC2 10).1

/-- First failed execution. -/
def tkF1 : Tick := (executeJobStep tkD1 20 jobC2 agentC2 false).1

/-- The copy re-queued after the first failure. -/
def copy1 : Job := { jobC2 with retry_count := some 1, status := "pending" }

/-- Second dispatch (the tick hands out the re-queued copy). -/
def tkD2 : Tick := (processJobs tkF1 30).1

/-- Second failed execution. -/
def tkF2 : Tick := (executeJobStep tkD2 40 copy1 agentC2 false).1

/-- The copy re-queued after the second failure. -/
def copy2 : Job := { jobC2 with retry_count := some 2, status := "pending" }

/-- Third dispatch. -/
def tkD3 : Tick := (processJobs tkF2 50).1

/-- Third failed execution (first failure plus two further failures). -/
def tkF3 : Tick := (executeJobStep tkD3 60 copy2 agentC2 false).1

/-- The copy re-queued after the third failure. -/
def copy3 : Job := { jobC2 with retry_count := some 3, status := "pending" }

/-- Fourth dispatch. -/
def tkD4 : Tick := (processJobs tkF3 70).1

/-- Fourth failed execution. -/
def tkF4 : Tick := (executeJobStep tkD4 80 copy3 agentC2 false).1

/-- A job waiting in a build-affinity group. -/
def jobQFG : Job :=
  { id := "j4", org_id := "acme", app_version_id := "v1",
    test_path := "tests/a.spec.js", priority := "medium", target := "emulator",
    status := "queued_for_group", created_at := 0, updated_at := 0,
    group_key := some "a2:v1", agent_id := some "a2" }

/-- A pending emulator job next to `jobQFG`. -/
def jobPendC3 : Job :=
  { id := "j5", org_id := "acme", app_version_id := "v1",
    test_path := "tests/b.spec.js", priority := "medium", target := "emulator",
    status := "pending", created_at := 0, updated_at := 0 }

/-- Store for the C3 scenario. -/
def stC3 : St :=
  { jobs := [("j4", jobQFG), ("j5", jobPendC3)], agents := [("a2", agentEmu)],
    queues := [] }

/-- A completed job record. -/
def jobDoneC5 : Job :=
  { id := "j6", org_id := "acme", app_version_id := "v1",
    test_path := "tests/a.spec.js", priority := "medium", target := "emulator",
    status := "completed", created_at := 0, updated_at := 5,
    completed_at := some 5, assigned_agent := some "a6" }

/-- Store for the C5 scenario: a single terminal job. -/
def stC5 : St := { jobs := [("j6", jobDoneC5)], agents := [], queues := [] }

/-- The agent that owns the jobs of the C6 scenario. -/
def agentC6 : Agent :=
  { id := "a6", name := "owner agent", capabilities := ⟨true, false, false⟩,
    status := "busy", last_seen := 0, registered_at := 0 }

/-- A completed job still carrying its owning agent. -/
def jobDoneC6 : Job := { jobDoneC5 with id := "j7" }

/-- A running job owned by the same agent. -/
def jobRunC6 : Job :=
  { jobDoneC5 with
    id := "j8"
    status := "running"
    completed_at := none
    started_at := some 3 }

/-- Store for the C6 scenario. -/
def stC6 : St :=
  { jobs := [("j7", jobDoneC6), ("j8", jobRunC6)], agents := [("a6", agentC6)],
    queues := [] }

/-- A plain pending job for the C8 cancellation scenario. -/
def jobPendC8 : Job :=
  { id := "j9", org_id := "acme", app_version_id := "v1",
    test_path := "tests/a.spec.js", priority := "medium", target := "emulator",
    status := "pending", created_at := 0, updated_at := 0 }

/-- Store for the C8 scenario. -/
def stC8 : St := { jobs := [("j9", jobPendC8)], agents := [], queues := [] }

/-- The job record that already occupies id `j10`. -/
def oldJobC9 : Job :=
  { id := "j10", org_id := "acme", app_version_id := "v1",
    test_path := "tests/old.spec.js", priority := "medium", target := "emulator",
    status := "running", created_at := 0, updated_at := 2, started_at := some 2 }

/-- Store for the C9 scenario. -/
def stC9 : St :=
  { jobs := [("j10", oldJobC9)], agents := [],
    queues := [("jobs:medium", [])] }

/-- A submission that reuses the existing id `j10`. -/
def bodyC9 : SubmitBody :=
  { org_id := some "megacorp", app_version_id := some "v2",
    test_path := some "tests/new.spec.js", id := some "j10" }

/-- A submission that supplies both a status and a back-dated
`created_at`. -/
def bodyC10 : SubmitBody :=
  { org_id := some "acme", app_version_id := some "v1",
    test_path := some "tests/a.spec.js", status := some "completed",
    created_at := some 5 }

/-- A minimal state holding only the fresh job `j3`, used to instantiate
the general retry theorem. -/
def tkW2 : Tick :=
  ⟨{ jobs := [("j3", jobC2)], agents := [], queues := [] }, []⟩

/-- Two states for instantiating the snapshot-independence theorem: same
queues and groups, different job records. -/
def tkW4a : Tick :=
  ⟨{ jobs := [("j2", jobCancelledC4)], agents := [],
     queues := [("jobs:medium", [jobStaleC4])] }, []⟩

/-- Companion state of `tkW4a` with an empty job-record table. -/
def tkW4b : Tick :=
  ⟨{ jobs := [], agents := [],
     queues := [("jobs:medium", [jobStaleC4])] }, []⟩

/-- The value Joi validation yields for `bodyC9`. -/
def valC9 : SubmitVal :=
  { org_id := "megacorp", app_version_id := "v2",
    test_path := "tests/new.spec.js", priority := "medium",
    target := "emulator", id := some "j10", created_at := none,
    status := none }

/-- The value Joi validation yields for `bodyC10`. -/
def valC10 : SubmitVal :=
  { org_id := "acme", app_version_id := "v1",
    test_path := "tests/a.spec.js", priority := "medium",
    target := "emulator", id := none, created_at := some 5,
    status := some "completed" }

/-! ## Store lemmas -/

/-- Reading back the key just written. -/
theorem alookup_aset_self {α : Type} (l : List (String × α)) (k : String) (v : α) :
    alookup (aset l k v) k = some v := by
  induction l with
  | nil => simp [aset, alookup]
  | cons p rest ih =>
    obtain ⟨k0, w⟩ := p
    by_cases h : k0 = k
    · simp [aset, alookup, h]
    · simp [aset, alookup, h, ih]

/-- Writing one key leaves every other key unchanged. -/
theorem alookup_aset_ne {α : Type} (l : List (String × α)) (k k2 : String) (v : α)
    (h : k2 ≠ k) : alookup (aset l k v) k2 = alookup l k2 := by
  induction l with
  | nil => simp [aset, alookup, Ne.symm h]
  | cons p rest ih =>
    obtain ⟨k0, w⟩ := p
    by_cases h0 : k0 = k
    · subst h0
      simp [aset, alookup, Ne.symm h]
    · by_cases h2 : k0 = k2 <;> simp [aset, alookup, h0, h2, ih, h]

/-- `updateJobStatus` on a missing record is a no-op. -/
theorem updateJobStatus_none (st : St) (now : Nat) (i s : String) (e : Patch)
    (h : alookup st.jobs i = none) : updateJobStatus st now i s e = (st, none) := by
  simp [updateJobStatus, h]

/-- `updateJobStatus` on a present record rewrites exactly that record. -/
theorem updateJobStatus_some (st : St) (now : Nat) (i s : String) (e : Patch) (job : Job)
    (h : alookup st.jobs i = some job) :
    updateJobStatus st now i s e =
      ({ st with jobs := aset st.jobs i (jobAfterUpdate job now s e) },
        some (jobAfterUpdate job now s e)) := by
  simp [updateJobStatus, h]

/-- `updateJobStatus` never touches the queues. -/
theorem updateJobStatus_queues (st : St) (now : Nat) (i s : String) (e : Patch) :
    (updateJobStatus st now i s e).1.queues = st.queues := by
  cases h : alookup st.jobs i <;> simp [updateJobStatus, h]

/-- `updateJobStatus` never touches the agents. -/
theorem updateJobStatus_agents (st : St) (now : Nat) (i s : String) (e : Patch) :
    (updateJobStatus st now i s e).1.agents = st.agents := by
  cases h : alookup st.jobs i <;> simp [updateJobStatus, h]

/-- `updateJobStatus` leaves every other job record unchanged. -/
theorem updateJobStatus_jobs_ne (st : St) (now : Nat) (i s : String) (e : Patch)
    (k : String) (h : k ≠ i) :
    alookup (updateJobStatus st now i s e).1.jobs k = alookup st.jobs k := by
  cases hh : alookup st.jobs i <;>
    simp [updateJobStatus, hh, alookup_aset_ne _ _ _ _ h]

/-- `updateAgentStatus` never touches the job records. -/
theorem updateAgentStatus_jobs (st : St) (now : Nat) (a s : String) (c : Option Job) :
    (updateAgentStatus st now a s c).1.jobs = st.jobs := by
  cases h : alookup st.agents a <;> simp [updateAgentStatus, h]

/-- `updateAgentStatus` never touches the queues. -/
theorem updateAgentStatus_queues (st : St) (now : Nat) (a s : String) (c : Option Job) :
    (updateAgentStatus st now a s c).1.queues = st.queues := by
  cases h : alookup st.agents a <;> simp [updateAgentStatus, h]

/-- `queuePush` reads back with the pushed job at the redis head. -/
theorem getQueueJobs_queuePush_self (st : St) (qn : String) (j : Job) :
    getQueueJobs (queuePush st qn j) qn = j :: getQueueJobs st qn := by
  simp [getQueueJobs, queuePush, alookup_aset_self]

/-- The group bookkeeping never touches the queues. -/
theorem groupAdvance_queues (tk : Tick) (now : Nat) (job : Job) (agent : Agent) :
    (groupAdvance tk now job agent).1.st.queues = tk.st.queues := by
  simp only [groupAdvance]
  split
  · split
    · split
      · simp [updateJobStatus_queues]
      · simp [updateAgentStatus_queues]
    · simp [updateAgentStatus_queues]
  · simp [updateAgentStatus_queues]

/-- The group bookkeeping never rewrites the record of the job whose
execution just finished (the only record it may touch is the next job of
the group, which the filter guarantees has a different id). -/
theorem groupAdvance_job_lookup (tk : Tick) (now : Nat) (job : Job) (agent : Agent) :
    alookup (groupAdvance tk now job agent).1.st.jobs job.id =
      alookup tk.st.jobs job.id := by
  simp only [groupAdvance]
  split
  next group hg =>
    split
    · split
      next nextJob tail hrem =>
        have hmem : nextJob ∈ group.jobs.filter (fun j => j.id ≠ job.id) := by
          rw [hrem]
          exact List.mem_cons_self _ _
        have hne : nextJob.id ≠ job.id := by
          have := (List.mem_filter.mp hmem).2
          simpa using this
        simp [updateJobStatus_jobs_ne _ _ _ _ _ _ (Ne.symm hne)]
      next hrem => simp [updateAgentStatus_jobs]
    · simp [updateAgentStatus_jobs]
  next hg => simp [updateAgentStatus_jobs]

/-! ## Claim C1 -/

/-- C1 counterexample.  The claim states that during a scheduler tick a
job is assigned only to an idle agent whose capability set contains the
job's target, and that with no capable idle agent the job is appended
back and no agent is consumed.  In the code the suitability predicate
falls through to `return true`, so in this concrete state a pending
`device` job is assigned to the only idle agent although that agent has
no capability at all: the tick emits an assignment, marks the job
running, empties the queue, and marks the agent busy. -/
theorem C1_counterexample :
    Capabilities.at agentNone.capabilities jobDevice.target = false ∧
    agentNone.status = "idle" ∧
    (processJobs ⟨stC1, []⟩ 1000).2 = [Decision.assigned "j1" "a1"] ∧
    (alookup (processJobs ⟨stC1, []⟩ 1000).1.st.jobs "j1").map Job.status =
      some "running" ∧
    getQueueJobs (processJobs ⟨stC1, []⟩ 1000).1.st "jobs:medium" = [] ∧
    (alookup (processJobs ⟨stC1, []⟩ 1000).1.st.agents "a1").map Agent.status =
      some "busy" := by
  decide

/-- Every agent satisfies the suitability predicate: the three capability
branches return true, and so does the final catch-all branch. -/
theorem suitablePred_true (job : Job) (agent : Agent) :
    suitablePred job agent = true := by
  simp only [suitablePred]
  split_ifs <;> rfl

/-- C1 (amended): during a scheduler tick a job is dispatched to the
first remaining idle agent regardless of capabilities — the capability
clauses of `findSuitableAgent` are shadowed by a catch-all that accepts
any agent — and a job is appended back to its queue only when no idle
agents remain at its turn. -/
theorem C1_amended (job : Job) (a : Agent) (agents : List Agent) (jobs : List Job)
    (tk : Tick) (queueName : String) (now : Nat) :
    findSuitableAgent job (a :: agents) = some a ∧
    ((processLoop (job :: jobs) (a :: agents) tk queueName now).2.2.head? =
      some (if shouldGroupJob tk job a then Decision.grouped job.id a.id
            else Decision.assigned job.id a.id)) ∧
    (processLoop (job :: jobs) [] tk queueName now).2.2.head? =
      some (Decision.requeued job.id) := by
  have hfind : findSuitableAgent job (a :: agents) = some a := by
    simp [findSuitableAgent, List.find?_cons, suitablePred_true]
  refine ⟨hfind, ?_, ?_⟩
  · simp only [processLoop, List.length_cons, hfind]
    by_cases hg : shouldGroupJob tk job a <;> simp [hg]
  · simp [processLoop]

/-! ## Claim C4 -/

/-- C4 counterexample.  The claim states that a snapshotted queue entry
whose stored record has advanced past `pending` (here: cancelled) is
dropped and never assigned or marked running.  In this concrete state the
queue holds a stale pending copy of job `j2` while the store records it
as cancelled; the tick assigns the stale entry anyway and overwrites the
cancelled record with `running`. -/
theorem C4_counterexample :
    (alookup stC4.jobs "j2").map Job.status = some "cancelled" ∧
    (processJobs ⟨stC4, []⟩ 1000).2 = [Decision.assigned "j2" "a2"] ∧
    (alookup (processJobs ⟨stC4, []⟩ 1000).1.st.jobs "j2").map Job.status =
      some "running" := by
  decide

/-- The grouping decision reads only the groups table (and the data of
the snapshot entry and agent), never the job store. -/
theorem shouldGroupJob_groups (tk1 tk2 : Tick) (job : Job) (agent : Agent)
    (hg : tk1.groups = tk2.groups) :
    shouldGroupJob tk1 job agent = shouldGroupJob tk2 job agent := by
  simp [shouldGroupJob, hg]

/-- `addJobToGroup` updates the groups table independently of the job
store. -/
theorem addJobToGroup_groups (tk1 tk2 : Tick) (now : Nat) (job : Job) (agent : Agent)
    (hg : tk1.groups = tk2.groups) :
    (addJobToGroup tk1 now job agent).groups = (addJobToGroup tk2 now job agent).groups := by
  simp [addJobToGroup, hg]

/-- `assignJobToAgent` updates the groups table independently of the job
store. -/
theorem assignJobToAgent_groups (tk1 tk2 : Tick) (now : Nat) (job : Job) (agent : Agent)
    (hg : tk1.groups = tk2.groups) :
    (assignJobToAgent tk1 now job agent).groups =
      (assignJobToAgent tk2 now job agent).groups := by
  simp [assignJobToAgent, hg]

/-- The walk over a sorted snapshot emits the same decisions, leaves the
same agents, and builds the same groups for any two states that agree on
the groups table: the job records are never consulted. -/
theorem processLoop_trace_groups (jobs : List Job) (agents : List Agent)
    (tk1 tk2 : Tick) (qn : String) (now : Nat) (hg : tk1.groups = tk2.groups) :
    (processLoop jobs agents tk1 qn now).2.2 = (processLoop jobs agents tk2 qn now).2.2 ∧
    (processLoop jobs agents tk1 qn now).1.groups =
      (processLoop jobs agents tk2 qn now).1.groups ∧
    (processLoop jobs agents tk1 qn now).2.1 = (processLoop jobs agents tk2 qn now).2.1 := by
  induction jobs generalizing agents tk1 tk2 with
  | nil => exact ⟨rfl, hg, rfl⟩
  | cons job rest ih =>
    simp only [processLoop]
    by_cases hlen : agents.length = 0
    · simp only [hlen, if_true]
      obtain ⟨h1, h2, h3⟩ := ih agents ⟨queuePush tk1.st qn job, tk1.groups⟩
        ⟨queuePush tk2.st qn job, tk2.groups⟩ hg
      exact ⟨by rw [h1], h2, h3⟩
    · simp only [hlen, if_false]
      cases hfind : findSuitableAgent job agents with
      | none =>
        dsimp only
        obtain ⟨h1, h2, h3⟩ := ih agents ⟨queuePush tk1.st qn job, tk1.groups⟩
          ⟨queuePush tk2.st qn job, tk2.groups⟩ hg
        exact ⟨by rw [h1], h2, h3⟩
      | some agent =>
        dsimp only
        rw [shouldGroupJob_groups tk1 tk2 job agent hg]
        by_cases hgr : shouldGroupJob tk2 job agent = true
        · simp only [if_pos hgr]
          have hg2 := addJobToGroup_groups tk1 tk2 now job agent hg
          obtain ⟨h1, h2, h3⟩ := ih agents (addJobToGroup tk1 now job agent)
            (addJobToGroup tk2 now job agent) hg2
          exact ⟨by rw [h1], h2, h3⟩
        · simp only [if_neg hgr]
          have hg2 := assignJobToAgent_groups tk1 tk2 now job agent hg
          obtain ⟨h1, h2, h3⟩ := ih (agents.eraseP (fun a => a.id = agent.id))
            (assignJobToAgent tk1 now job agent)
            (assignJobToAgent tk2 now job agent) hg2
          exact ⟨by rw [h1], h2, h3⟩

/-- C4 (amended): during a scheduler tick the snapshotted queue entries
are processed as they stand in the queue; the stored job records are
never consulted, so no entry is dropped for being cancelled, completed or
deleted.  Formally, two states that agree on the queues and on the groups
table produce identical decision sequences, whatever their job records
are. -/
theorem C4_amended (priority : String) (agents : List Agent) (tk1 tk2 : Tick)
    (now : Nat) (hq : tk1.st.queues = tk2.st.queues) (hg : tk1.groups = tk2.groups) :
    (processQueueByPriority priority agents tk1 now).2.2 =
      (processQueueByPriority priority agents tk2 now).2.2 := by
  have hsnap : getQueueJobs tk1.st ("jobs:" ++ priority) =
      getQueueJobs tk2.st ("jobs:" ++ priority) := by
    simp [getQueueJobs, hq]
  simp only [processQueueByPriority, hsnap]
  split
  · rfl
  · exact (processLoop_trace_groups _ agents _ _ _ now (by simpa using hg)).1

/-- Witness for C4 (amended): the state whose record table holds the
cancelled job `j2` and the state with no job records at all produce the
same decisions. -/
theorem C4_amended_witness :
    (processQueueByPriority "medium" [agentEmu] tkW4a 1000).2.2 =
      (processQueueByPriority "medium" [agentEmu] tkW4b 1000).2.2 :=
  C4_amended "medium" [agentEmu] tkW4a tkW4b 1000 (by decide) (by decide)

/-! ## Claim C7 -/

/-- Arithmetic characterization of the comparator. -/
theorem jobLE_true_iff (a b : Job) :
    jobLE a b = true ↔
      (orgPriority b.org_id < orgPriority a.org_id ∨
       (orgPriority a.org_id = orgPriority b.org_id ∧ a.created_at ≤ b.created_at)) := by
  unfold jobLE
  by_cases h : orgPriority a.org_id = orgPriority b.org_id
  · rw [if_neg (by simp [h])]
    simp [h]
  · rw [if_pos h]
    simp [h]

/-- The comparator is total. -/
theorem jobLEP_total (a b : Job) : jobLEP a b ∨ jobLEP b a := by
  simp only [jobLEP, jobLE_true_iff]
  omega

/-- The comparator is transitive. -/
theorem jobLEP_trans (a b c : Job) (h1 : jobLEP a b) (h2 : jobLEP b c) : jobLEP a c := by
  simp only [jobLEP, jobLE_true_iff] at h1 h2 ⊢
  omega

instance : IsTotal Job jobLEP := ⟨jobLEP_total⟩

instance : IsTrans Job jobLEP := ⟨jobLEP_trans⟩

/-- The comparator taken from the source agrees with the ordering the
specification words describe. -/
theorem jobLEP_iff_specOrder (a b : Job) : jobLEP a b ↔ specOrder a b := by
  simp only [jobLEP, jobLE_true_iff, specOrder]

/-- The walk over the sorted snapshot emits exactly one decision per
entry, in snapshot order. -/
theorem processLoop_map_jobId (jobs : List Job) (agents : List Agent) (tk : Tick)
    (qn : String) (now : Nat) :
    (processLoop jobs agents tk qn now).2.2.map Decision.jobId = jobs.map Job.id := by
  induction jobs generalizing agents tk with
  | nil => simp [processLoop]
  | cons job rest ih =>
    simp only [processLoop]
    by_cases hlen : agents.length = 0
    · simp only [hlen, if_true]
      simp [Decision.jobId, ih]
    · simp only [hlen, if_false]
      cases hfind : findSuitableAgent job agents with
      | none =>
        dsimp only
        simp [Decision.jobId, ih]
      | some agent =>
        dsimp only
        by_cases hgr : shouldGroupJob tk job agent = true
        · simp only [if_pos hgr]
          simp [Decision.jobId, ih]
        · simp only [if_neg hgr]
          simp [Decision.jobId, ih]

/-- C7: within a tick, the jobs snapshotted from a priority queue are
processed in the order of tenant (org) weight descending, ties broken by
`created_at` ascending, with weight 10 for a tenant absent from the
mapping (that default is part of `orgPriority`); the decision sequence —
and hence the assignment order — follows exactly this sorted order, which
is a permutation of the snapshot. -/
theorem C7_processing_order (priority : String) (agents : List Agent) (tk : Tick)
    (now : Nat) :
    (sortQueueJobs (getQueueJobs tk.st ("jobs:" ++ priority))).Perm
      (getQueueJobs tk.st ("jobs:" ++ priority)) ∧
    (sortQueueJobs (getQueueJobs tk.st ("jobs:" ++ priority))).Pairwise specOrder ∧
    (processQueueByPriority priority agents tk now).2.2.map Decision.jobId =
      (sortQueueJobs (getQueueJobs tk.st ("jobs:" ++ priority))).map Job.id := by
  refine ⟨List.perm_insertionSort jobLEP _, ?_, ?_⟩
  · have h := List.sorted_insertionSort jobLEP (getQueueJobs tk.st ("jobs:" ++ priority))
    exact List.Pairwise.imp (fun hab => (jobLEP_iff_specOrder _ _).1 hab) h
  · simp only [processQueueByPriority]
    split
    next hempty =>
      have : getQueueJobs tk.st ("jobs:" ++ priority) = [] :=
        List.length_eq_zero.mp hempty
      simp [this, sortQueueJobs]
    next hempty =>
      exact processLoop_map_jobId _ agents _ _ now

/-! ## Claim C2 -/

/-- States with equal queue tables read equal queues. -/
theorem getQueueJobs_eq_of_queues (st1 st2 : St) (qn : String)
    (h : st1.queues = st2.queues) : getQueueJobs st1 qn = getQueueJobs st2 qn := by
  simp [getQueueJobs, h]

/-- Unfolding a failed execution below the retry limit. -/
theorem executeJobStep_fail_retry (tk : Tick) (now : Nat) (job : Job) (agent : Agent)
    (hlt : job.retry_count.getD 0 < 3) :
    executeJobStep tk now job agent false =
      groupAdvance
        { tk with st := (queuePush
            (updateJobStatus tk.st now job.id "retrying"
              { retry_count := some (some (job.retry_count.getD 0 + 1)),
                last_error := some (some "Test execution failed"),
                retry_at := some (some (now + 30000)) }).1
            ("jobs:" ++ job.priority)
            { job with
              retry_count := some (job.retry_count.getD 0 + 1)
              status := "pending" }) }
        now job agent := by
  simp only [executeJobStep, Bool.false_eq_true, if_false, if_pos hlt]

/-- Unfolding a failed execution at the retry limit. -/
theorem executeJobStep_fail_max (tk : Tick) (now : Nat) (job : Job) (agent : Agent)
    (hge : ¬ job.retry_count.getD 0 < 3) :
    executeJobStep tk now job agent false =
      groupAdvance
        { tk with st := (updateJobStatus tk.st now job.id "failed"
            { error := some (some "Test execution failed after maximum retries"),
              retry_count := some (some (job.retry_count.getD 0)),
              max_retries_reached := some (some true),
              result := some (some "failed") }).1 }
        now job agent := by
  simp only [executeJobStep, Bool.false_eq_true, if_false, if_neg hge]

/-- C2 (amended): with the code's retry guard `retry_count < 3`, a failed
execution of a dispatched job whose counter `n` is below 3 marks the
record `retrying` with counter `n + 1` and pushes a pending copy with
counter `n + 1` onto the FIFO tail of `jobs:{priority}` (index 0 of the
stored list); so a job failing every execution is dispatched at counters
0, 1, 2 and 3 — four dispatches, not three — and only the fourth failure,
at counter 3, marks the record `failed` and re-queues nothing. -/
theorem C2_amended (tk : Tick) (now : Nat) (job : Job) (agent : Agent) (stored : Job)
    (hst : alookup tk.st.jobs job.id = some stored) :
    (job.retry_count.getD 0 < 3 →
      ∃ j, alookup (executeJobStep tk now job agent false).1.st.jobs job.id = some j ∧
        j.status = "retrying" ∧ j.retry_count = some (job.retry_count.getD 0 + 1)) ∧
    (job.retry_count.getD 0 < 3 →
      getQueueJobs (executeJobStep tk now job agent false).1.st ("jobs:" ++ job.priority) =
        { job with retry_count := some (job.retry_count.getD 0 + 1), status := "pending" } ::
          getQueueJobs tk.st ("jobs:" ++ job.priority)) ∧
    (¬ job.retry_count.getD 0 < 3 →
      (∃ j, alookup (executeJobStep tk now job agent false).1.st.jobs job.id = some j ∧
        j.status = "failed" ∧ j.retry_count = some (job.retry_count.getD 0)) ∧
      getQueueJobs (executeJobStep tk now job agent false).1.st ("jobs:" ++ job.priority) =
        getQueueJobs tk.st ("jobs:" ++ job.priority)) := by
  refine ⟨?_, ?_, ?_⟩
  · intro hlt
    rw [executeJobStep_fail_retry tk now job agent hlt]
    refine ⟨jobAfterUpdate stored now "retrying"
      { retry_count := some (some (job.retry_count.getD 0 + 1)),
        last_error := some (some "Test execution failed"),
        retry_at := some (some (now + 30000)) }, ?_, ?_, ?_⟩
    · rw [groupAdvance_job_lookup]
      show alookup (updateJobStatus tk.st now job.id "retrying" _).1.jobs job.id = _
      rw [updateJobStatus_some tk.st now job.id "retrying" _ stored hst]
      exact alookup_aset_self _ _ _
    · simp [jobAfterUpdate, applyPatch]
    · simp [jobAfterUpdate, applyPatch]
  · intro hlt
    rw [executeJobStep_fail_retry tk now job agent hlt]
    rw [getQueueJobs_eq_of_queues _ _ _ (groupAdvance_queues _ _ _ _)]
    rw [getQueueJobs_queuePush_self]
    rw [getQueueJobs_eq_of_queues _ _ _ (updateJobStatus_queues _ _ _ _ _)]
  · intro hge
    rw [executeJobStep_fail_max tk now job agent hge]
    refine ⟨⟨jobAfterUpdate stored now "failed"
      { error := some (some "Test execution failed after maximum retries"),
        retry_count := some (some (job.retry_count.getD 0)),
        max_retries_reached := some (some true),
        result := some (some "failed") }, ?_, ?_, ?_⟩, ?_⟩
    · rw [groupAdvance_job_lookup]
      show alookup (updateJobStatus tk.st now job.id "failed" _).1.jobs job.id = _
      rw [updateJobStatus_some tk.st now job.id "failed" _ stored hst]
      exact alookup_aset_self _ _ _
    · simp [jobAfterUpdate, applyPatch]
    · simp [jobAfterUpdate, applyPatch]
    · rw [getQueueJobs_eq_of_queues _ _ _ (groupAdvance_queues _ _ _ _)]
      exact getQueueJobs_eq_of_queues _ _ _ (updateJobStatus_queues _ _ _ _ _)

/-- Witness for C2 (amended): the first failed execution of the fresh job
`jobC2` marks it `retrying` with counter 1. -/
theorem C2_amended_witness :
    ∃ j, alookup (executeJobStep tkW2 20 jobC2 agentC2 false).1.st.jobs jobC2.id = some j ∧
      j.status = "retrying" ∧ j.retry_count = some (jobC2.retry_count.getD 0 + 1) :=
  (C2_amended tkW2 20 jobC2 agentC2 jobC2 (by decide)).1 (by decide)

/-- C2 counterexample.  The claim states that with `max_attempts = 3` a
job failing every execution becomes `failed` after the first failure plus
two further failures and is never dispatched a fourth time.  Running the
concrete scenario: after the third failed execution the record is still
`retrying` (not `failed`) with counter 3, a pending copy with counter 3
sits in the queue, the next tick dispatches it a fourth time, and only
the fourth failure marks the record `failed`. -/
theorem C2_counterexample :
    (alookup tkF1.st.jobs "j3").map Job.status = some "retrying" ∧
    (alookup tkF1.st.jobs "j3").bind Job.retry_count = some 1 ∧
    (alookup tkF3.st.jobs "j3").map Job.status = some "retrying" ∧
    (alookup tkF3.st.jobs "j3").map Job.status ≠ some "failed" ∧
    (getQueueJobs tkF3.st "jobs:medium").head? = some copy3 ∧
    (processJobs tkF3 70).2 = [Decision.assigned "j3" "a3"] ∧
    (alookup tkF4.st.jobs "j3").map Job.status = some "failed" ∧
    getQueueJobs tkF4.st "jobs:medium" = [] := by
  decide

/-! ## Claim C3 -/

/-- C3 counterexample.  The claim states that claim(agent, job) succeeds
for every existing job in state pending or queued-for-group when the
agent has the capability, setting the job running and the agent busy, and
fails with Conflict exactly when the job is not claimable.  In this
concrete state the endpoint answers Conflict for the queued-for-group job
`j4` although a capable agent claims it, and for the plainly pending job
`j5` it answers an internal error (the handler calls the undefined store
function `JobStore.updateJob`) leaving the store — job and agent records
alike — unchanged. -/
theorem C3_counterexample :
    (alookup stC3.jobs "j4").map Job.status = some "queued_for_group" ∧
    Capabilities.at agentEmu.capabilities jobQFG.target = true ∧
    claimRoute stC3 "a2" "j4" = (RouteRes.conflict, stC3) ∧
    (alookup stC3.jobs "j5").map Job.status = some "pending" ∧
    claimRoute stC3 "a2" "j5" = (RouteRes.internalError, stC3) ∧
    (alookup stC3.agents "a2").map Agent.status = some "idle" := by
  decide

/-- C3 (amended): for an existing agent and an existing job, the claim
endpoint that Express dispatches to answers Conflict exactly when the
job's state differs from pending (queued-for-group is therefore rejected),
Forbidden when the state is pending but the agent lacks the capability for
the job's target, and otherwise an internal error — its success branch
calls a store function that does not exist — and in every case the store
is left unchanged: the job is never marked running and the agent never
busy. -/
theorem C3_amended (st : St) (agentId jobId : String) (agent : Agent) (job : Job)
    (ha : alookup st.agents agentId = some agent)
    (hj : alookup st.jobs jobId = some job) :
    (claimRoute st agentId jobId).2 = st ∧
    ((claimRoute st agentId jobId).1 = RouteRes.conflict ↔ job.status ≠ "pending") ∧
    (job.status = "pending" → Capabilities.at agent.capabilities job.target = false →
      (claimRoute st agentId jobId).1 = RouteRes.forbidden) ∧
    (job.status = "pending" → Capabilities.at agent.capabilities job.target = true →
      (claimRoute st agentId jobId).1 = RouteRes.internalError) := by
  refine ⟨?_, ?_, ?_, ?_⟩
  · simp only [claimRoute, ha, hj]
    split_ifs <;> rfl
  · simp only [claimRoute, ha, hj]
    split_ifs with h1 h2 <;> simp_all
  · intro hp hc
    simp only [claimRoute, ha, hj]
    rw [if_neg (by simp [hp]), if_pos (by simp [hc])]
  · intro hp hc
    simp only [claimRoute, ha, hj]
    rw [if_neg (by simp [hp]), if_neg (by simp [hc])]

/-- Witness for C3 (amended): the store is unchanged by the concrete
claim call on the queued-for-group job. -/
theorem C3_amended_witness :
    (claimRoute stC3 "a2" "j4").2 = stC3 :=
  (C3_amended stC3 "a2" "j4" agentEmu jobQFG (by decide) (by decide)).1

/-! ## Claim C5 -/

/-- C5 counterexample.  The claim states that every transition request
from a terminal state is rejected and the record left unchanged, and that
illegal state-machine edges are rejected in general.  In this concrete
state the status endpoint moves a `completed` job back to `running` with
a fresh `started_at`, answering ok. -/
theorem C5_counterexample :
    jobDoneC5.status = "completed" ∧
    (statusRoute stC5 100 "j6" "running" none none).1 = RouteRes.ok ∧
    (alookup (statusRoute stC5 100 "j6" "running" none none).2.jobs "j6").map Job.status =
      some "running" ∧
    (alookup (statusRoute stC5 100 "j6" "running" none none).2.jobs "j6").bind Job.started_at =
      some 100 := by
  decide

/-- C5 (amended): the status endpoint validates only membership of the
target status in the whitelist pending / running / completed / failed /
cancelled; it checks no state-machine edge, so any whitelisted status —
from any current state, terminal states included — is applied and
answered ok, while a status outside the whitelist is rejected with the
store unchanged. -/
theorem C5_amended (st : St) (now : Nat) (jobId s : String) (r e : Option String)
    (job : Job) (hj : alookup st.jobs jobId = some job) :
    (¬ validStatuses.contains s = true →
      statusRoute st now jobId s r e = (RouteRes.badRequest, st)) ∧
    (validStatuses.contains s = true →
      (statusRoute st now jobId s r e).1 = RouteRes.ok ∧
      ∃ j, alookup (statusRoute st now jobId s r e).2.jobs jobId = some j ∧
        j.status = s) := by
  constructor
  · intro h
    simp only [statusRoute]
    rw [if_pos h]
  · intro h
    simp only [statusRoute]
    rw [if_neg (not_not_intro h), hj]
    dsimp only
    refine ⟨rfl, jobAfterUpdate job now s
      { result := (match r with
          | some rr => if rr = "" then none else some (some rr)
          | none => none),
        error := (match e with
          | some ee => if ee = "" then none else some (some ee)
          | none => none) }, ?_, ?_⟩
    · rw [updateJobStatus_some st now jobId s _ job hj]
      exact alookup_aset_self _ _ _
    · simp only [jobAfterUpdate, applyPatch]
      split_ifs <;> rfl

/-- Witness for C5 (amended): the concrete completed-to-running request
is accepted and applied. -/
theorem C5_amended_witness :
    (statusRoute stC5 100 "j6" "running" none none).1 = RouteRes.ok ∧
    ∃ j, alookup (statusRoute stC5 100 "j6" "running" none none).2.jobs "j6" = some j ∧
      j.status = "running" :=
  (C5_amended stC5 100 "j6" "running" none none jobDoneC5 (by decide)).2 (by decide)

/-! ## Claim C6 -/

/-- C6 counterexample.  The claim states that complete fails with
Forbidden whenever the job's state is not running (or the agent does not
own it), and that a second identical call returns Forbidden or acts as a
no-op on the same terminal state.  In this concrete state the owning
agent completes the already-completed job `j7`: the endpoint does not
answer Forbidden but an internal error (its success branch calls the
undefined store function `JobStore.updateJob`), and even for the running
job `j8` owned by the same agent no terminal state is ever produced. -/
theorem C6_counterexample :
    jobDoneC6.status = "completed" ∧
    jobDoneC6.assigned_agent = some "a6" ∧
    (completeRoute stC6 "a6" "j7" true none none).1 = RouteRes.internalError ∧
    (completeRoute stC6 "a6" "j7" true none none).1 ≠ RouteRes.forbidden ∧
    jobRunC6.status = "running" ∧
    completeRoute stC6 "a6" "j8" true none none = (RouteRes.internalError, stC6) := by
  decide

/-- C6 (amended): for an existing agent and an existing job, the complete
endpoint that Express dispatches to answers Forbidden exactly when the
job's `assigned_agent` differs from the agent id — the running-state
precondition is not checked — and otherwise an internal error, because its
success branch calls a store function that does not exist; the store is
never modified, so a repeated identical call returns the identical
result. -/
theorem C6_amended (st : St) (agentId jobId : String) (success : Bool)
    (em rs : Option String) (agent : Agent) (job : Job)
    (ha : alookup st.agents agentId = some agent)
    (hj : alookup st.jobs jobId = some job) :
    (completeRoute st agentId jobId success em rs).2 = st ∧
    ((completeRoute st agentId jobId success em rs).1 = RouteRes.forbidden ↔
      job.assigned_agent ≠ some agentId) ∧
    (job.assigned_agent = some agentId →
      (completeRoute st agentId jobId success em rs).1 = RouteRes.internalError) ∧
    completeRoute (completeRoute st agentId jobId success em rs).2 agentId jobId success em rs =
      completeRoute st agentId jobId success em rs := by
  have h2 : (completeRoute st agentId jobId success em rs).2 = st := by
    simp only [completeRoute, ha, hj]
    split_ifs <;> rfl
  refine ⟨h2, ?_, ?_, by rw [h2]⟩
  · simp only [completeRoute, ha, hj]
    split_ifs with h <;> simp_all
  · intro hm
    simp only [completeRoute, ha, hj]
    rw [if_neg (by simp [hm])]

/-- Witness for C6 (amended): the owning agent's completion of the
already-completed job answers the internal error. -/
theorem C6_amended_witness :
    (completeRoute stC6 "a6" "j7" true none none).1 = RouteRes.internalError :=
  (C6_amended stC6 "a6" "j7" true none none agentC6 jobDoneC6
    (by decide) (by decide)).2.2.1 (by decide)

/-! ## Claim C8 -/

/-- C8 counterexample.  The claim states that entering any of completed,
failed or cancelled stamps `completed_at`.  Cancelling the concrete
pending job `j9` through the delete endpoint leaves `completed_at` empty
while the record is `cancelled` (only `updated_at` is refreshed). -/
theorem C8_counterexample :
    jobPendC8.completed_at = none ∧
    (deleteJob stC8 100 "j9").1 = RouteRes.ok ∧
    (alookup (deleteJob stC8 100 "j9").2.jobs "j9").map Job.status = some "cancelled" ∧
    (alookup (deleteJob stC8 100 "j9").2.jobs "j9").bind Job.completed_at = none ∧
    (alookup (deleteJob stC8 100 "j9").2.jobs "j9").map Job.updated_at = some 100 := by
  decide

/-- C8 (amended): `updateJobStatus` refreshes `updated_at` on every
transition, stamps `started_at` when entering running and `completed_at`
when entering completed or failed — but entering cancelled leaves
`completed_at` exactly as it was (for any patch that does not itself
carry a `completed_at` key). -/
theorem C8_amended (st : St) (now : Nat) (jobId s : String) (extra : Patch) (job : Job)
    (hj : alookup st.jobs jobId = some job) (hc : extra.completed_at = none) :
    ∃ j, (updateJobStatus st now jobId s extra).2 = some j ∧
      j.status = s ∧ j.updated_at = now ∧
      (s = "running" → j.started_at = some now) ∧
      (s = "completed" ∨ s = "failed" → j.completed_at = some now) ∧
      (s = "cancelled" → j.completed_at = job.completed_at) := by
  refine ⟨jobAfterUpdate job now s extra,
    by rw [updateJobStatus_some st now jobId s extra job hj], ?_, ?_, ?_, ?_, ?_⟩
  · simp only [jobAfterUpdate, applyPatch]
    split_ifs <;> rfl
  · simp only [jobAfterUpdate, applyPatch]
    split_ifs <;> rfl
  · intro h
    simp [jobAfterUpdate, applyPatch, h]
  · intro h
    rcases h with h | h <;> simp [jobAfterUpdate, applyPatch, h, hc]
  · intro h
    simp [jobAfterUpdate, applyPatch, h, hc]

/-- Witness for C8 (amended): the concrete cancellation keeps the empty
`completed_at` of the pending job. -/
theorem C8_amended_witness :
    ∃ j, (updateJobStatus stC8 100 "j9" "cancelled" {}).2 = some j ∧
      j.status = "cancelled" ∧ j.updated_at = 100 ∧
      ("cancelled" = "running" → j.started_at = some 100) ∧
      ("cancelled" = "completed" ∨ "cancelled" = "failed" → j.completed_at = some 100) ∧
      ("cancelled" = "cancelled" → j.completed_at = jobPendC8.completed_at) :=
  C8_amended stC8 100 "j9" "cancelled" {} jobPendC8 (by decide) (by decide)

/-! ## Claim C9 -/

/-- C9 counterexample.  The claim states that submitting with an id that
already names an existing job fails with Conflict and leaves the existing
record unchanged.  Submitting `bodyC9`, whose id `j10` is already taken,
answers created and silently replaces the stored record. -/
theorem C9_counterexample :
    (alookup stC9.jobs "j10").isSome = true ∧
    bodyC9.id = some "j10" ∧
    (postJobs stC9 100 "fresh-uuid" bodyC9).1 = RouteRes.created ∧
    (alookup (postJobs stC9 100 "fresh-uuid" bodyC9).2.1.jobs "j10").map Job.org_id =
      some "megacorp" ∧
    alookup (postJobs stC9 100 "fresh-uuid" bodyC9).2.1.jobs "j10" ≠ some oldJobC9 := by
  decide

/-- C9 (amended): a submission whose client-supplied id already names an
existing job is not rejected: the endpoint answers created and the store
afterwards holds the freshly built record under that id — the previous
record is silently overwritten. -/
theorem C9_amended (st : St) (now : Nat) (freshId : String) (b : SubmitBody)
    (v : SubmitVal) (i : String) (old : Job)
    (hv : validateSubmit b = some v) (hid : v.id = some i)
    (hold : alookup st.jobs i = some old) :
    (postJobs st now freshId b).1 = RouteRes.created ∧
    alookup (postJobs st now freshId b).2.1.jobs i =
      some { id := i, org_id := v.org_id, app_version_id := v.app_version_id,
             test_path := v.test_path, priority := v.priority, target := v.target,
             status := "pending", created_at := v.created_at.getD now,
             updated_at := now } := by
  simp only [postJobs, hv, hid, Option.getD_some]
  exact ⟨trivial, alookup_aset_self _ _ _⟩

/-- Witness for C9 (amended): the concrete clashing submission overwrites
`j10`. -/
theorem C9_amended_witness :
    (postJobs stC9 100 "fresh-uuid" bodyC9).1 = RouteRes.created ∧
    alookup (postJobs stC9 100 "fresh-uuid" bodyC9).2.1.jobs "j10" =
      some { id := "j10", org_id := valC9.org_id, app_version_id := valC9.app_version_id,
             test_path := valC9.test_path, priority := valC9.priority,
             target := valC9.target, status := "pending",
             created_at := valC9.created_at.getD 100, updated_at := 100 } :=
  C9_amended stC9 100 "fresh-uuid" bodyC9 valC9 "j10" oldJobC9
    (by decide) (by decide) (by decide)

/-! ## Claim C10 -/

/-- Joi validation passes the optional `created_at` and `status` keys
through unchanged. -/
theorem validateSubmit_passthrough (b : SubmitBody) (v : SubmitVal)
    (hv : validateSubmit b = some v) :
    v.created_at = b.created_at ∧ v.status = b.status := by
  unfold validateSubmit at hv
  cases h1 : b.org_id with
  | none => rw [h1] at hv; cases hv
  | some o =>
    cases h2 : b.app_version_id with
    | none => rw [h1, h2] at hv; cases hv
    | some av =>
      cases h3 : b.test_path with
      | none => rw [h1, h2, h3] at hv; cases hv
      | some tp =>
        rw [h1, h2, h3] at hv
        dsimp only at hv
        split_ifs at hv <;> simp_all
        exact ⟨hv.symm ▸ rfl, hv.symm ▸ rfl⟩

/-- C10: every valid submission produces a record whose status is pending
— a status value supplied in the body is ignored — while a `created_at`
value supplied in the body is stored as the record's `created_at` in
place of the submission time, and the record is stored under its id. -/
theorem C10_submit (st : St) (now : Nat) (freshId : String) (b : SubmitBody)
    (v : SubmitVal) (hv : validateSubmit b = some v) :
    (postJobs st now freshId b).1 = RouteRes.created ∧
    ∃ job len, (postJobs st now freshId b).2.2 = some (job, len) ∧
      job.status = "pending" ∧
      job.created_at = b.created_at.getD now ∧
      alookup (postJobs st now freshId b).2.1.jobs job.id = some job := by
  obtain ⟨hca, hstt⟩ := validateSubmit_passthrough b v hv
  simp only [postJobs, hv]
  refine ⟨trivial, _, _, rfl, rfl, ?_, ?_⟩
  · simp [hca]
  · exact alookup_aset_self _ _ _

/-- Witness for C10: the concrete submission that supplies both a status
(`completed`, ignored) and a back-dated `created_at` (5, stored). -/
theorem C10_submit_witness :
    (postJobs stC8 100 "uuid-1" bodyC10).1 = RouteRes.created ∧
    ∃ job len, (postJobs stC8 100 "uuid-1" bodyC10).2.2 = some (job, len) ∧
      job.status = "pending" ∧
      job.created_at = bodyC10.created_at.getD 100 ∧
      alookup (postJobs stC8 100 "uuid-1" bodyC10).2.1.jobs job.id = some job :=
  C10_submit stC8 100 "uuid-1" bodyC10 valC10 (by decide)

end JobServer
